import Mathlib

/-!
Verification of the TesseraEngine Vulkan renderer core against its
natural-language specification.

The development shallowly embeds the functions of
`TesseraEngine/source/renderer/vulkan/VulkanRenderer.cpp` that the claims
talk about:

* `chooseSwapExtent` — surface-extent selection;
* `findMemoryType` — memory-type selection;
* `generateMipmaps` — the mip-level blit/barrier command plan;
* `createBuffer` / `createImage` — allocation validation and the graphics
  API calls they issue;
* the per-frame synchronization cycle of `drawFrame`
  (`cleanupFrameResources`, fence wait/reset, `acquireNextImage`, deferred
  buffer queuing by `createVertexBuffer`/`createIndexBuffer`, submit and
  present), modelled as a state machine emitting an event log;
* `processLoadedMeshes` — the mesh ingestion / combined-buffer rebuild;
* `updateUniformBuffer` and `recordCommandBuffer` — uniform writes and the
  recorded draw command stream.

Machine integers that matter for control flow (the `uint32` sentinel in
`chooseSwapExtent`, bitmasks in `findMemoryType`) are modelled as `Nat`
with explicit bit operations; Vulkan handles, GPU memory and floating
point payloads are abstracted to opaque identifiers, since no claim
depends on their contents.
-/

namespace TesseraEngine

/-! ## Swap extent selection (`VulkanRenderer::chooseSwapExtent`) -/

/-- `VkExtent2D`: a width/height pair of `uint32` values. -/
structure Extent2D where
  width : Nat
  height : Nat
deriving DecidableEq, Repr

/-- The fields of `VkSurfaceCapabilitiesKHR` read by `chooseSwapExtent`. -/
structure SurfaceCapabilities where
  currentExtent : Extent2D
  minImageExtent : Extent2D
  maxImageExtent : Extent2D
deriving DecidableEq, Repr

/-- `std::numeric_limits<uint32_t>::max()`, the sentinel meaning
"the surface does not define a current extent". -/
def uint32Max : Nat := 4294967295

/-- `std::clamp(v, lo, hi)` exactly as specified by the C++ standard:
`v < lo ? lo : hi < v ? hi : v`. -/
def stdClamp (v lo hi : Nat) : Nat :=
  if v < lo then lo else if hi < v then hi else v

/-- `VulkanRenderer::chooseSwapExtent`.  `windowWidth`/`windowHeight` are the
drawable size reported by the platform collaborator
(`CORE->platform->getWindowInfo()`). -/
def chooseSwapExtent (capabilities : SurfaceCapabilities)
    (windowWidth windowHeight : Nat) : Extent2D :=
  if capabilities.currentExtent.width ≠ uint32Max then
    capabilities.currentExtent
  else
    { width := stdClamp windowWidth
        capabilities.minImageExtent.width capabilities.maxImageExtent.width,
      height := stdClamp windowHeight
        capabilities.minImageExtent.height capabilities.maxImageExtent.height }

theorem stdClamp_mem (v lo hi : Nat) (h : lo ≤ hi) :
    lo ≤ stdClamp v lo hi ∧ stdClamp v lo hi ≤ hi := by
  unfold stdClamp
  split
  · exact ⟨Nat.le_refl lo, h⟩
  · split
    · exact ⟨h, Nat.le_refl hi⟩
    · omega

/-- Claim C5: whenever the surface capabilities define a current extent
(its width differs from the maximum `uint32` value), `chooseSwapExtent`
returns that extent unchanged; otherwise it returns the platform's drawable
size with width and height each clamped into
`[minImageExtent, maxImageExtent]` (and hence lying in that interval
whenever the interval is nonempty). -/
theorem chooseSwapExtent_spec (capabilities : SurfaceCapabilities)
    (windowWidth windowHeight : Nat) :
    (capabilities.currentExtent.width ≠ uint32Max →
      chooseSwapExtent capabilities windowWidth windowHeight =
        capabilities.currentExtent) ∧
    (capabilities.currentExtent.width = uint32Max →
      chooseSwapExtent capabilities windowWidth windowHeight =
        { width := stdClamp windowWidth
            capabilities.minImageExtent.width capabilities.maxImageExtent.width,
          height := stdClamp windowHeight
            capabilities.minImageExtent.height capabilities.maxImageExtent.height } ∧
      (capabilities.minImageExtent.width ≤ capabilities.maxImageExtent.width →
        capabilities.minImageExtent.width ≤
            (chooseSwapExtent capabilities windowWidth windowHeight).width ∧
          (chooseSwapExtent capabilities windowWidth windowHeight).width ≤
            capabilities.maxImageExtent.width) ∧
      (capabilities.minImageExtent.height ≤ capabilities.maxImageExtent.height →
        capabilities.minImageExtent.height ≤
            (chooseSwapExtent capabilities windowWidth windowHeight).height ∧
          (chooseSwapExtent capabilities windowWidth windowHeight).height ≤
            capabilities.maxImageExtent.height)) := by
  constructor
  · intro h
    unfold chooseSwapExtent
    simp [h]
  · intro h
    have hch : chooseSwapExtent capabilities windowWidth windowHeight =
        { width := stdClamp windowWidth
            capabilities.minImageExtent.width capabilities.maxImageExtent.width,
          height := stdClamp windowHeight
            capabilities.minImageExtent.height capabilities.maxImageExtent.height } := by
      unfold chooseSwapExtent
      simp [h]
    refine ⟨hch, ?_, ?_⟩
    · intro hle
      rw [hch]
      exact stdClamp_mem windowWidth _ _ hle
    · intro hle
      rw [hch]
      exact stdClamp_mem windowHeight _ _ hle

/-- Witness for C5: a defined current extent is returned unchanged, and with
the sentinel width the window size is clamped into the surface bounds. -/
theorem chooseSwapExtent_spec_witness :
    (chooseSwapExtent ⟨⟨800, 600⟩, ⟨100, 100⟩, ⟨2000, 2000⟩⟩ 640 480 =
      ⟨800, 600⟩) ∧
    (chooseSwapExtent ⟨⟨4294967295, 600⟩, ⟨100, 100⟩, ⟨2000, 2000⟩⟩ 64 4800 =
      ⟨100, 2000⟩) :=
  ⟨(chooseSwapExtent_spec ⟨⟨800, 600⟩, ⟨100, 100⟩, ⟨2000, 2000⟩⟩ 640 480).1
      (by decide),
    ((chooseSwapExtent_spec ⟨⟨4294967295, 600⟩, ⟨100, 100⟩, ⟨2000, 2000⟩⟩
        64 4800).2 (by decide)).1⟩

/-! ## Memory type selection (`VulkanRenderer::findMemoryType`)

`memoryTypes` lists, in index order, the `propertyFlags` of each
`VkMemoryType` reported by `vkGetPhysicalDeviceMemoryProperties`
(`memoryTypeCount` entries).  The function scans indices in increasing
order and returns the first index whose bit is set in `typeFilter` and
whose flags are a superset of the requested `properties`; `none` models
the fatal `ASSERT(memoryIndex.has_value(), ...)`. -/

/-- The loop body of `findMemoryType`, carrying the running index:
`if (typeFilter & 1 << i && (memoryTypes[i].propertyFlags & properties) == properties)`. -/
def findMemoryTypeGo (typeFilter properties : Nat) :
    Nat → List Nat → Option Nat
  | _, [] => none
  | i, flags :: rest =>
    if typeFilter.testBit i && (flags &&& properties == properties) then
      some i
    else
      findMemoryTypeGo typeFilter properties (i + 1) rest

/-- `VulkanRenderer::findMemoryType`. -/
def findMemoryType (memoryTypes : List Nat) (typeFilter properties : Nat) :
    Option Nat :=
  findMemoryTypeGo typeFilter properties 0 memoryTypes

/-- Memory type at relative position `k` of the scanned list `l` (whose head
sits at absolute index `base`) passes the filter-and-superset test. -/
def suitableFrom (typeFilter properties : Nat) (l : List Nat)
    (base k : Nat) : Prop :=
  (typeFilter.testBit (base + k)) = true ∧
    ∃ flags, l.get? k = some flags ∧ flags &&& properties = properties

/-- A memory type index satisfies the claim's condition: its bit is set in
the type filter and its property flags are a superset of the requested
flags. -/
def suitableMemoryType (memoryTypes : List Nat)
    (typeFilter properties i : Nat) : Prop :=
  suitableFrom typeFilter properties memoryTypes 0 i

theorem findMemoryTypeGo_some (typeFilter properties : Nat) :
    ∀ (l : List Nat) (base i : Nat),
      findMemoryTypeGo typeFilter properties base l = some i →
      ∃ k, i = base + k ∧ suitableFrom typeFilter properties l base k ∧
        ∀ j, j < k → ¬ suitableFrom typeFilter properties l base j := by
  intro l
  induction l with
  | nil => intro base i h; simp [findMemoryTypeGo] at h
  | cons flags rest ih =>
    intro base i h
    unfold findMemoryTypeGo at h
    split at h
    case isTrue hc =>
      have hi : base = i := by injection h
      subst hi
      refine ⟨0, by omega, ?_, by omega⟩
      simp only [Bool.and_eq_true, beq_iff_eq] at hc
      exact ⟨by simpa using hc.1, flags, rfl, hc.2⟩
    case isFalse hc =>
      obtain ⟨k, hk, hsuit, hmin⟩ := ih (base + 1) i h
      refine ⟨k + 1, by omega, ?_, ?_⟩
      · obtain ⟨hbit, f, hget, hmask⟩ := hsuit
        refine ⟨by simpa [Nat.add_assoc, Nat.add_comm 1 k] using hbit, f, ?_, hmask⟩
        simpa using hget
      · intro j hj
        match j with
        | 0 =>
          intro ⟨hbit, f, hget, hmask⟩
          simp only [List.get?] at hget
          apply hc
          simp only [Bool.and_eq_true, beq_iff_eq]
          refine ⟨by simpa using hbit, ?_⟩
          cases hget
          exact hmask
        | j + 1 =>
          intro ⟨hbit, f, hget, hmask⟩
          apply hmin j (by omega)
          refine ⟨by simpa [Nat.add_assoc, Nat.add_comm 1 j] using hbit, f, ?_, hmask⟩
          simpa using hget

theorem findMemoryTypeGo_none (typeFilter properties : Nat) :
    ∀ (l : List Nat) (base : Nat),
      findMemoryTypeGo typeFilter properties base l = none ↔
        ∀ k, ¬ suitableFrom typeFilter properties l base k := by
  intro l
  induction l with
  | nil =>
    intro base
    constructor
    · intro _ k hk
      obtain ⟨_, f, hget, _⟩ := hk
      simp at hget
    · intro _
      rfl
  | cons flags rest ih =>
    intro base
    unfold findMemoryTypeGo
    split
    case isTrue hc =>
      simp only [Bool.and_eq_true, beq_iff_eq] at hc
      constructor
      · intro h; exact absurd h (by simp)
      · intro h
        exact absurd ⟨by simpa using hc.1, flags, rfl, hc.2⟩ (h 0)
    case isFalse hc =>
      rw [ih (base + 1)]
      constructor
      · intro h k
        match k with
        | 0 =>
          intro ⟨hbit, f, hget, hmask⟩
          simp only [List.get?] at hget
          apply hc
          simp only [Bool.and_eq_true, beq_iff_eq]
          cases hget
          exact ⟨by simpa using hbit, hmask⟩
        | k + 1 =>
          intro ⟨hbit, f, hget, hmask⟩
          apply h k
          refine ⟨by simpa [Nat.add_assoc, Nat.add_comm 1 k] using hbit, f, ?_, hmask⟩
          simpa using hget
      · intro h k ⟨hbit, f, hget, hmask⟩
        apply h (k + 1)
        refine ⟨by simpa [Nat.add_assoc, Nat.add_comm 1 k] using hbit, f, ?_, hmask⟩
        simpa using hget

/-- Claim C6: for every type filter and requested property flags,
`findMemoryType` returns the lowest-indexed memory type whose bit is set in
the filter and whose property flags are a superset of the requested flags,
and it fails (the fatal assertion, modelled by `none`) if and only if no
such memory type exists. -/
theorem findMemoryType_spec (memoryTypes : List Nat)
    (typeFilter properties : Nat) :
    (∀ i, findMemoryType memoryTypes typeFilter properties = some i →
      suitableMemoryType memoryTypes typeFilter properties i ∧
        ∀ j, j < i → ¬ suitableMemoryType memoryTypes typeFilter properties j) ∧
    (findMemoryType memoryTypes typeFilter properties = none ↔
      ∀ i, ¬ suitableMemoryType memoryTypes typeFilter properties i) := by
  constructor
  · intro i h
    obtain ⟨k, hk, hsuit, hmin⟩ :=
      findMemoryTypeGo_some typeFilter properties memoryTypes 0 i h
    have hik : i = k := by omega
    subst hik
    exact ⟨hsuit, fun j hj => hmin j hj⟩
  · exact findMemoryTypeGo_none typeFilter properties memoryTypes 0

/-- Witness for C6: with memory types `[0x10, 0x3, 0x7]`, filter `0b110` and
requested properties `0x3`, the selector picks index 1 (the lowest filtered
index whose flags contain the request) and rejects index 0. -/
theorem findMemoryType_spec_witness :
    suitableMemoryType [16, 3, 7] 6 3 1 ∧
      ∀ j, j < 1 → ¬ suitableMemoryType [16, 3, 7] 6 3 j :=
  (findMemoryType_spec [16, 3, 7] 6 3).1 1 (by decide)

/-! ## Mipmap generation (`VulkanRenderer::generateMipmaps`)

`generateMipmaps` records, into a one-time command buffer, an alternation
of `vkCmdPipelineBarrier` layout transitions and `vkCmdBlitImage` blits.
The model captures the recorded command stream; image handles are
irrelevant (a single image is used throughout). -/

/-- The image layouts appearing in `generateMipmaps`. -/
inductive ImageLayout
  | transferDstOptimal
  | transferSrcOptimal
  | shaderReadOnlyOptimal
deriving DecidableEq, Repr

/-- A command recorded by `generateMipmaps`: a layout-transition barrier on
one mip level, or a blit from one level to the next (with its source and
destination extents). -/
inductive MipCommand
  | barrier (level : Nat) (oldLayout newLayout : ImageLayout)
  | blit (srcLevel dstLevel srcW srcH dstW dstH : Nat)
deriving DecidableEq, Repr

/-- `if (mipWidth > 1) mipWidth /= 2;` — the per-iteration update of the
running mip extent. -/
def mipStep (w : Nat) : Nat := if 1 < w then w / 2 else w

/-- The running mip extent before iteration `j` of the loop (iteration `0`
uses the full texture extent). -/
def mipSize (w : Nat) : Nat → Nat
  | 0 => w
  | j + 1 => mipStep (mipSize w j)

/-- `mipWidth > 1 ? mipWidth / 2 : 1` — the destination extent of a blit. -/
def blitDstExtent (w : Nat) : Nat := if 1 < w then w / 2 else 1

/-- The loop `for (uint32_t i = 1; i < texture.maxMipLevels; i++)`, with
`n` remaining iterations, current loop counter `i` and current running
extents `w`/`h`. -/
def mipLoop : Nat → Nat → Nat → Nat → List MipCommand
  | 0, _, _, _ => []
  | n + 1, i, w, h =>
    MipCommand.barrier (i - 1) ImageLayout.transferDstOptimal
        ImageLayout.transferSrcOptimal ::
      MipCommand.blit (i - 1) i w h (blitDstExtent w) (blitDstExtent h) ::
      MipCommand.barrier (i - 1) ImageLayout.transferSrcOptimal
        ImageLayout.shaderReadOnlyOptimal ::
      mipLoop n (i + 1) (mipStep w) (mipStep h)

/-- `VulkanRenderer::generateMipmaps` for a texture with `maxMipLevels`
levels and base extent `texWidth × texHeight`: the loop over levels
`1 .. maxMipLevels-1` followed by the final barrier on the coarsest
level. -/
def generateMipmaps (maxMipLevels texWidth texHeight : Nat) :
    List MipCommand :=
  mipLoop (maxMipLevels - 1) 1 texWidth texHeight ++
    [MipCommand.barrier (maxMipLevels - 1) ImageLayout.transferDstOptimal
      ImageLayout.shaderReadOnlyOptimal]

/-- The transition group the claim describes for a non-final source level
`level` with current extents `wj × hj`: a transfer-dst→transfer-src
barrier on that level, the blit from `level` to `level + 1`, and a
transfer-src→shader-read-only barrier on that level. -/
def mipGroup (level wj hj : Nat) : List MipCommand :=
  [MipCommand.barrier level ImageLayout.transferDstOptimal
      ImageLayout.transferSrcOptimal,
    MipCommand.blit level (level + 1) wj hj (blitDstExtent wj) (blitDstExtent hj),
    MipCommand.barrier level ImageLayout.transferSrcOptimal
      ImageLayout.shaderReadOnlyOptimal]

/-- The command pattern the claim describes: a transition group for each
source level `j = 0 .. K-2`, then a single direct
transfer-dst→shader-read-only barrier on the final level `K-1` (that level
is never a blit source, so it skips the blit-source intermediate state) —
`K` per-level transition groups in all. -/
def mipmapBlitPlan (maxMipLevels texWidth texHeight : Nat) :
    List MipCommand :=
  ((List.range (maxMipLevels - 1)).flatMap fun j =>
      mipGroup j (mipSize texWidth j) (mipSize texHeight j)) ++
    [MipCommand.barrier (maxMipLevels - 1) ImageLayout.transferDstOptimal
      ImageLayout.shaderReadOnlyOptimal]

/-- `true` exactly on blit commands. -/
def MipCommand.isBlit : MipCommand → Bool
  | MipCommand.blit _ _ _ _ _ _ => true
  | _ => false

/-- `true` exactly on barrier commands. -/
def MipCommand.isBarrier : MipCommand → Bool
  | MipCommand.barrier _ _ _ => true
  | _ => false

@[simp]
theorem isBlit_barrier (level : Nat) (a b : ImageLayout) :
    (MipCommand.barrier level a b).isBlit = false := rfl

@[simp]
theorem isBlit_blit (a b c d e f : Nat) :
    (MipCommand.blit a b c d e f).isBlit = true := rfl

@[simp]
theorem isBarrier_barrier (level : Nat) (a b : ImageLayout) :
    (MipCommand.barrier level a b).isBarrier = true := rfl

@[simp]
theorem isBarrier_blit (a b c d e f : Nat) :
    (MipCommand.blit a b c d e f).isBarrier = false := rfl

theorem mipSize_succ_left (x j : Nat) :
    mipSize x (j + 1) = mipSize (mipStep x) j := by
  induction j with
  | zero => rfl
  | succ j ihj => simpa [mipSize] using congrArg mipStep ihj

theorem mipLoop_eq_flatMap (n : Nat) : ∀ (i w h : Nat), 1 ≤ i →
    mipLoop n i w h = (List.range n).flatMap fun j =>
      mipGroup (i - 1 + j) (mipSize w j) (mipSize h j) := by
  induction n with
  | zero => intro i w h _; simp [mipLoop]
  | succ n ih =>
    intro i w h hi
    rw [List.range_succ_eq_map, List.flatMap_cons, List.flatMap_map]
    have hf : (fun a : Nat =>
          mipGroup (i - 1 + a.succ) (mipSize w a.succ) (mipSize h a.succ)) =
        fun j : Nat =>
          mipGroup (i + 1 - 1 + j) (mipSize (mipStep w) j)
            (mipSize (mipStep h) j) := by
      funext j
      have h1 : i - 1 + j.succ = i + 1 - 1 + j := by omega
      rw [h1, show j.succ = j + 1 from rfl, mipSize_succ_left, mipSize_succ_left]
    rw [hf, ← ih (i + 1) (mipStep w) (mipStep h) (by omega)]
    have h2 : i - 1 + 1 = i := by omega
    simp [mipLoop, mipGroup, mipSize, h2]

theorem mipLoop_countP_blit (n : Nat) : ∀ (i w h : Nat),
    (mipLoop n i w h).countP MipCommand.isBlit = n := by
  induction n with
  | zero => intro i w h; simp [mipLoop]
  | succ n ih =>
    intro i w h
    simp [mipLoop, List.countP_cons, ih]

theorem mipLoop_countP_barrier (n : Nat) : ∀ (i w h : Nat),
    (mipLoop n i w h).countP MipCommand.isBarrier = 2 * n := by
  induction n with
  | zero => intro i w h; simp [mipLoop]
  | succ n ih =>
    intro i w h
    simp [mipLoop, List.countP_cons, ih]
    omega

/-- Claim C7: for a texture with `K = maxMipLevels` mip levels (`K ≥ 1`),
`generateMipmaps` records exactly the pattern `mipmapBlitPlan`: one blit
from level `i-1` to level `i` for each `i ∈ 1..K-1` (so exactly `K-1`
blits), each preceded by a transfer-dst→transfer-src barrier on its source
level and followed by a transfer-src→shader-read-only barrier on that
level, and the final (coarsest) level transitioned directly from
transfer-dst to shader-read-only — `K` per-level transition groups in all,
realized by `2*(K-1) + 1` barrier commands. -/
theorem generateMipmaps_spec (maxMipLevels texWidth texHeight : Nat)
    (hK : 1 ≤ maxMipLevels) :
    generateMipmaps maxMipLevels texWidth texHeight =
        mipmapBlitPlan maxMipLevels texWidth texHeight ∧
      (generateMipmaps maxMipLevels texWidth texHeight).countP
          MipCommand.isBlit = maxMipLevels - 1 ∧
      (generateMipmaps maxMipLevels texWidth texHeight).countP
          MipCommand.isBarrier = 2 * (maxMipLevels - 1) + 1 := by
  refine ⟨?_, ?_, ?_⟩
  · unfold generateMipmaps mipmapBlitPlan
    rw [mipLoop_eq_flatMap (maxMipLevels - 1) 1 texWidth texHeight
      (Nat.le_refl 1)]
    simp
  · unfold generateMipmaps
    rw [List.countP_append, mipLoop_countP_blit]
    simp
  · unfold generateMipmaps
    rw [List.countP_append, mipLoop_countP_barrier]
    simp

/-- Witness for C7: a 3-level 8×4 texture gets 2 blits (levels 0→1, 1→2)
and 5 barriers, the final level transitioning directly. -/
theorem generateMipmaps_spec_witness :
    1 ≤ 3 ∧
      (generateMipmaps 3 8 4 = mipmapBlitPlan 3 8 4 ∧
        (generateMipmaps 3 8 4).countP MipCommand.isBlit = 2 ∧
        (generateMipmaps 3 8 4).countP MipCommand.isBarrier = 5) :=
  ⟨by decide, generateMipmaps_spec 3 8 4 (by decide)⟩

/-! ## Allocation validation (`VulkanRenderer::createBuffer`, `createImage`)

Both functions begin with a defensive `ASSERT` on the requested size, then
issue graphics-API calls (`vkCreateBuffer`/`vkCreateImage`, a memory
allocation via `findMemoryType`, and a bind).  The model records the API
calls actually issued together with an optional fatal assertion; the
device-reported memory requirements (`memoryTypeBits`, allocation size)
and the table of memory types are inputs. -/

/-- A call into the graphics API issued by `createBuffer`/`createImage`. -/
inductive VkCall
  | vkCreateBuffer (size usage : Nat)
  | vkAllocateMemory (allocationSize memoryTypeIndex : Nat)
  | vkBindBufferMemory
  | vkCreateImage (width height mipLevels : Nat)
  | vkBindImageMemory
deriving DecidableEq, Repr

/-- The fatal `ASSERT`s reached by the modelled paths. -/
inductive FatalAssert
  | emptyBufferSize
  | invalidImageDimensions
  | noSuitableMemoryType
deriving DecidableEq, Repr

/-- The graphics-API calls a function issued, and the fatal assertion it
died on, if any (calls listed are those made before dying). -/
structure ApiTrace where
  calls : List VkCall
  fatal : Option FatalAssert
deriving DecidableEq, Repr

/-- `VulkanRenderer::createBuffer`: asserts `size > 0`, creates the buffer,
queries its memory requirements (`memoryTypeBits`/`allocationSize`), picks
a memory type, allocates and binds. -/
def createBuffer (memoryTypes : List Nat) (memoryTypeBits allocationSize : Nat)
    (size usage properties : Nat) : ApiTrace :=
  if 0 < size then
    match findMemoryType memoryTypes memoryTypeBits properties with
    | some idx =>
      { calls := [VkCall.vkCreateBuffer size usage,
          VkCall.vkAllocateMemory allocationSize idx,
          VkCall.vkBindBufferMemory],
        fatal := none }
    | none =>
      { calls := [VkCall.vkCreateBuffer size usage],
        fatal := some FatalAssert.noSuitableMemoryType }
  else
    { calls := [], fatal := some FatalAssert.emptyBufferSize }

/-- `VulkanRenderer::createImage`: asserts `width != 0 && height != 0`,
creates the image, queries its memory requirements, picks a memory type,
allocates and binds. -/
def createImage (memoryTypes : List Nat) (memoryTypeBits allocationSize : Nat)
    (width height numberOfMipLevels properties : Nat) : ApiTrace :=
  if width ≠ 0 ∧ height ≠ 0 then
    match findMemoryType memoryTypes memoryTypeBits properties with
    | some idx =>
      { calls := [VkCall.vkCreateImage width height numberOfMipLevels,
          VkCall.vkAllocateMemory allocationSize idx,
          VkCall.vkBindImageMemory],
        fatal := none }
    | none =>
      { calls := [VkCall.vkCreateImage width height numberOfMipLevels],
        fatal := some FatalAssert.noSuitableMemoryType }
  else
    { calls := [], fatal := some FatalAssert.invalidImageDimensions }

/-- Claim C8: `createBuffer` dies on its fatal assertion before issuing any
graphics-API call exactly when the requested size is `0`, and `createImage`
dies on its fatal assertion before issuing any graphics-API call exactly
when the requested width or height is `0`; zero-sized allocations are never
silently accepted. -/
theorem zero_sized_allocations_rejected (memoryTypes : List Nat)
    (memoryTypeBits allocationSize size usage properties : Nat)
    (width height numberOfMipLevels : Nat) :
    (size = 0 →
      createBuffer memoryTypes memoryTypeBits allocationSize
          size usage properties =
        { calls := [], fatal := some FatalAssert.emptyBufferSize }) ∧
    (size ≠ 0 →
      (createBuffer memoryTypes memoryTypeBits allocationSize
          size usage properties).fatal ≠ some FatalAssert.emptyBufferSize) ∧
    (width = 0 ∨ height = 0 →
      createImage memoryTypes memoryTypeBits allocationSize
          width height numberOfMipLevels properties =
        { calls := [], fatal := some FatalAssert.invalidImageDimensions }) ∧
    (width ≠ 0 ∧ height ≠ 0 →
      (createImage memoryTypes memoryTypeBits allocationSize
          width height numberOfMipLevels properties).fatal ≠
        some FatalAssert.invalidImageDimensions) := by
  refine ⟨?_, ?_, ?_, ?_⟩
  · intro h
    subst h
    simp [createBuffer]
  · intro h
    unfold createBuffer
    rw [if_pos (by omega)]
    cases findMemoryType memoryTypes memoryTypeBits properties with
    | none => simp
    | some idx => simp
  · intro h
    unfold createImage
    rw [if_neg (by tauto)]
  · intro h
    unfold createImage
    rw [if_pos h]
    cases findMemoryType memoryTypes memoryTypeBits properties with
    | none => simp
    | some idx => simp

/-- Witness for C8: a zero-sized buffer and a zero-height image die before
any API call; a 16-byte buffer does not hit the size assertion. -/
theorem zero_sized_allocations_rejected_witness :
    (createBuffer [7] 1 64 0 2 1 =
      { calls := [], fatal := some FatalAssert.emptyBufferSize }) ∧
    (createBuffer [7] 1 64 16 2 1).fatal ≠ some FatalAssert.emptyBufferSize ∧
    (createImage [7] 1 64 128 0 1 1 =
      { calls := [], fatal := some FatalAssert.invalidImageDimensions }) :=
  ⟨(zero_sized_allocations_rejected [7] 1 64 0 2 1 128 0 1).1 rfl,
    (zero_sized_allocations_rejected [7] 1 64 16 2 1 128 0 1).2.1 (by decide),
    (zero_sized_allocations_rejected [7] 1 64 16 2 1 128 0 1).2.2.1
      (Or.inr rfl)⟩

/-! ## The per-frame synchronization cycle (`VulkanRenderer::drawFrame`)

`drawFrame` is modelled as a state machine over the renderer fields it
touches, parameterized by `N = MAX_FRAMES_IN_FLIGHT` (its value lives in
the header, outside `src/`; the spec says "typically 2–3").  Each call
consumes a `FrameInput` — the outcome of `vkAcquireNextImageKHR`, whether
the pending-mesh queue is non-empty (so `processLoadedMeshes` rebuilds the
combined buffers), and the outcome of `vkQueuePresentKHR` — and emits the
ordered list of observable actions the C++ body performs.  Deferred
(buffer, memory) pairs are identified by the index of the `drawFrame` call
that queued them plus which of the two combined buffers they belonged
to. -/

/-- Result of `vkAcquireNextImageKHR` as distinguished by
`acquireNextImage`: success, `VK_SUBOPTIMAL_KHR`, `VK_ERROR_OUT_OF_DATE_KHR`,
or any other failure code (which trips the fatal assert). -/
inductive AcquireResult
  | success
  | suboptimal
  | outOfDate
  | otherError
deriving DecidableEq, Repr

/-- Result of `vkQueuePresentKHR` as distinguished by `drawFrame`. -/
inductive PresentResult
  | success
  | suboptimal
  | outOfDate
  | otherError
deriving DecidableEq, Repr

/-- Which of the two combined buffers a deferred-destroy entry held. -/
inductive BufKind
  | vertex
  | indexBuf
deriving DecidableEq, Repr

/-- A deferred (buffer, memory) pair, identified by the `drawFrame` call
that retired it and the buffer it replaced. -/
abbrev DeferredEntry := Nat × BufKind

/-- The environment of one `drawFrame` call. -/
structure FrameInput where
  acquire : AcquireResult
  rebuild : Bool
  present : PresentResult
deriving DecidableEq, Repr

/-- An observable action of `drawFrame`, in program order. -/
inductive FrameEvent
  | destroyDeferred (slot : Nat) (entry : DeferredEntry)
  | fenceWait (slot : Nat)
  | recreateSwapChain
  | fatalError
  | updateUniform (slot : Nat)
  | queueDeferred (slot : Nat) (entry : DeferredEntry)
  | fenceReset (slot : Nat)
  | resetCommand (slot : Nat)
  | recordCommand (slot : Nat)
  | submit (slot : Nat)
  | presentCall (slot : Nat)
deriving DecidableEq, Repr

/-- The renderer state read and written by `drawFrame`. -/
structure FrameSyncState where
  isRunning : Bool
  currentFrame : Nat
  buffersToDelete : Nat → List DeferredEntry
  framebufferResized : Bool
  hasVertexBuffer : Bool
  hasIndexBuffer : Bool

/-- `VulkanRenderer::cleanupFrameResources`: destroy and clear the
deferred-destroy list of slot `(currentFrame + 1) % N` (the state's
`currentFrame` has already been advanced by `drawFrame`). -/
def cleanupFrameResources (N : Nat) (s : FrameSyncState) :
    FrameSyncState × List FrameEvent :=
  let frameToClean := (s.currentFrame + 1) % N
  ( { s with buffersToDelete := fun i =>
        if i = frameToClean then [] else s.buffersToDelete i },
    (s.buffersToDelete frameToClean).map
      (FrameEvent.destroyDeferred frameToClean) )

/-- `frames[currentFrame].buffersToDelete.emplace_back(buffer, memory)`. -/
def queueDeferredEntry (slot : Nat) (entry : DeferredEntry)
    (s : FrameSyncState) : FrameSyncState :=
  { s with buffersToDelete := fun i =>
      if i = slot then s.buffersToDelete i ++ [entry]
      else s.buffersToDelete i }

/-- The deferred-destroy bookkeeping of `VulkanRenderer::createVertexBuffer`
during a rebuild: if a combined vertex buffer exists, queue the old
(buffer, memory) pair on the current slot's list; the new buffer then
exists either way. -/
def createVertexBufferDefer (callId slot : Nat) (s : FrameSyncState) :
    FrameSyncState × List FrameEvent :=
  if s.hasVertexBuffer then
    ( { queueDeferredEntry slot (callId, BufKind.vertex) s with
          hasVertexBuffer := true },
      [FrameEvent.queueDeferred slot (callId, BufKind.vertex)] )
  else
    ({ s with hasVertexBuffer := true }, [])

/-- The deferred-destroy bookkeeping of `VulkanRenderer::createIndexBuffer`
during a rebuild (analogous to the vertex buffer). -/
def createIndexBufferDefer (callId slot : Nat) (s : FrameSyncState) :
    FrameSyncState × List FrameEvent :=
  if s.hasIndexBuffer then
    ( { queueDeferredEntry slot (callId, BufKind.indexBuf) s with
          hasIndexBuffer := true },
      [FrameEvent.queueDeferred slot (callId, BufKind.indexBuf)] )
  else
    ({ s with hasIndexBuffer := true }, [])

/-- `VulkanRenderer::processLoadedMeshes` as seen by the frame cycle: when
the pending-mesh queue is non-empty (`rebuild`), the combined vertex and
index buffers are rebuilt, retiring the old ones onto the current slot's
deferred-destroy list. -/
def processLoadedMeshesDefer (callId slot : Nat) (rebuild : Bool)
    (s : FrameSyncState) : FrameSyncState × List FrameEvent :=
  if rebuild then
    let rv := createVertexBufferDefer callId slot s
    let ri := createIndexBufferDefer callId slot rv.1
    (ri.1, rv.2 ++ ri.2)
  else
    (s, [])

/-- The tail of `drawFrame` reached when image acquisition hands back an
image (success or a merely suboptimal surface): update uniforms, drain
pending meshes, reset the fence, reset and re-record the command buffer,
submit, present, then recreate the swapchain if presentation reported the
surface stale/suboptimal or a resize is pending (the fatal assert fires on
any other present failure). -/
def drawFrameBodyEvents (callId : Nat) (reb : Bool) (cf : Nat)
    (s1 : FrameSyncState) (preEvents : List FrameEvent) : List FrameEvent :=
  preEvents ++ [FrameEvent.updateUniform cf] ++
    (processLoadedMeshesDefer callId cf reb s1).2 ++
    [FrameEvent.fenceReset cf, FrameEvent.resetCommand cf,
      FrameEvent.recordCommand cf, FrameEvent.submit cf,
      FrameEvent.presentCall cf]

def drawFrameBody (callId : Nat) (reb : Bool) (pres : PresentResult)
    (cf : Nat) (s1 : FrameSyncState) (preEvents : List FrameEvent) :
    FrameSyncState × List FrameEvent :=
  if pres = PresentResult.outOfDate ∨ pres = PresentResult.suboptimal ∨
      (processLoadedMeshesDefer callId cf reb s1).1.framebufferResized then
    ({ (processLoadedMeshesDefer callId cf reb s1).1 with
        framebufferResized := false },
      drawFrameBodyEvents callId reb cf s1 preEvents ++
        [FrameEvent.recreateSwapChain])
  else if pres = PresentResult.otherError then
    ((processLoadedMeshesDefer callId cf reb s1).1,
      drawFrameBodyEvents callId reb cf s1 preEvents ++
        [FrameEvent.fatalError])
  else
    ((processLoadedMeshesDefer callId cf reb s1).1,
      drawFrameBodyEvents callId reb cf s1 preEvents)

/-- `VulkanRenderer::drawFrame`, call number `callId`: bail out unless
running; advance the frame slot; run deferred destruction; wait on the
slot's fence; acquire (out-of-date recreates the swapchain and skips the
frame, any other failure is fatal); then the body (`drawFrameBody`). -/
def drawFrame (N callId : Nat) (inp : FrameInput) (s : FrameSyncState) :
    FrameSyncState × List FrameEvent :=
  if s.isRunning = false then (s, [])
  else
    let sAdv := { s with currentFrame := (s.currentFrame + 1) % N }
    let cf := sAdv.currentFrame
    let rc := cleanupFrameResources N sAdv
    let preEvents := rc.2 ++ [FrameEvent.fenceWait cf]
    match inp.acquire with
    | AcquireResult.outOfDate =>
      (rc.1, preEvents ++ [FrameEvent.recreateSwapChain])
    | AcquireResult.otherError =>
      (rc.1, preEvents ++ [FrameEvent.fatalError])
    | _ =>
      drawFrameBody callId inp.rebuild inp.present cf rc.1 preEvents

/-- Run a sequence of `drawFrame` calls, numbering them from `callId` and
collecting each call's event list. -/
def runFramesAux (N : Nat) :
    Nat → List FrameInput → FrameSyncState →
      FrameSyncState × List (List FrameEvent)
  | _, [], s => (s, [])
  | callId, inp :: rest, s =>
    let r := drawFrame N callId inp s
    let rr := runFramesAux N (callId + 1) rest r.1
    (rr.1, r.2 :: rr.2)

/-- Run a sequence of `drawFrame` calls numbered from `0`. -/
def runFrames (N : Nat) (inputs : List FrameInput) (s : FrameSyncState) :
    FrameSyncState × List (List FrameEvent) :=
  runFramesAux N 0 inputs s

/-- The renderer state right after `init` completes (`isRunning = true`,
`currentFrame = 0`, all deferred lists empty, no resize pending) with the
combined vertex/index buffers already built. -/
def initFrameState : FrameSyncState :=
  { isRunning := true
    currentFrame := 0
    buffersToDelete := fun _ => []
    framebufferResized := false
    hasVertexBuffer := true
    hasIndexBuffer := true }

/-- The renderer state before `init` finishes or after the
application-quit event: `isRunning = false`. -/
def stoppedFrameState : FrameSyncState :=
  { initFrameState with isRunning := false }

/-- Claim C9: when `isRunning` is false, `drawFrame` returns immediately
with the state unchanged and performs no observable action: the frame
index is not advanced, no deferred buffer is destroyed, no fence is waited
on or reset, no uniform is written, nothing is submitted or presented. -/
theorem drawFrame_not_running (N callId : Nat) (inp : FrameInput)
    (s : FrameSyncState) (h : s.isRunning = false) :
    drawFrame N callId inp s = (s, []) := by
  unfold drawFrame
  rw [if_pos h]

/-- Witness for C9: a stopped renderer ignores a frame request entirely. -/
theorem drawFrame_not_running_witness :
    stoppedFrameState.isRunning = false ∧
      drawFrame 2 0 ⟨AcquireResult.success, true, PresentResult.success⟩
          stoppedFrameState =
        (stoppedFrameState, []) :=
  ⟨rfl, drawFrame_not_running 2 0 _ stoppedFrameState rfl⟩

theorem cleanupFrameResources_events (N : Nat) (s : FrameSyncState) :
    ∀ e ∈ (cleanupFrameResources N s).2,
      ∃ entry, e = FrameEvent.destroyDeferred ((s.currentFrame + 1) % N)
        entry := by
  intro e he
  unfold cleanupFrameResources at he
  simp only [List.mem_map] at he
  obtain ⟨entry, _, rfl⟩ := he
  exact ⟨entry, rfl⟩

theorem processLoadedMeshesDefer_events (callId slot : Nat) (rebuild : Bool)
    (s : FrameSyncState) :
    ∀ e ∈ (processLoadedMeshesDefer callId slot rebuild s).2,
      ∃ entry, e = FrameEvent.queueDeferred slot entry := by
  intro e he
  unfold processLoadedMeshesDefer createVertexBufferDefer
    createIndexBufferDefer at he
  cases rebuild with
  | false => simp at he
  | true =>
    cases hv : s.hasVertexBuffer <;> cases hi : s.hasIndexBuffer <;>
      simp [hv, hi, queueDeferredEntry] at he <;>
      rcases he with rfl | rfl <;> exact ⟨_, rfl⟩

/-- Claim C1 (failing behavior, evaluated): with `N = 2` frames in flight,
the (buffer, memory) pairs retired by a combined-buffer rebuild during
`drawFrame` call 0 (slot 1) are destroyed during call 1 — the very next
frame, `N - 1 = 1` frames after being queued rather than the claimed `N`,
and the destruction happens before call 1 waits on its slot's fence (the
wait that would guarantee completion of the GPU work submitted in the last
frame that still referenced the old buffers). -/
theorem deferred_destroy_after_one_frame :
    (runFrames 2
        [⟨AcquireResult.success, true, PresentResult.success⟩,
          ⟨AcquireResult.success, false, PresentResult.success⟩]
        initFrameState).2 =
      [[FrameEvent.fenceWait 1, FrameEvent.updateUniform 1,
          FrameEvent.queueDeferred 1 (0, BufKind.vertex),
          FrameEvent.queueDeferred 1 (0, BufKind.indexBuf),
          FrameEvent.fenceReset 1, FrameEvent.resetCommand 1,
          FrameEvent.recordCommand 1, FrameEvent.submit 1,
          FrameEvent.presentCall 1],
        [FrameEvent.destroyDeferred 1 (0, BufKind.vertex),
          FrameEvent.destroyDeferred 1 (0, BufKind.indexBuf),
          FrameEvent.fenceWait 0, FrameEvent.updateUniform 0,
          FrameEvent.fenceReset 0, FrameEvent.resetCommand 0,
          FrameEvent.recordCommand 0, FrameEvent.submit 0,
          FrameEvent.presentCall 0]] := by
  decide

/-- Counterexample to claim C2 as stated: in a run where call 0's image
acquisition reports the surface out of date (a skipped frame), slot 1's
fence is waited on at flattened-log positions 0 and 9 with no reset of
that fence anywhere in between. -/
theorem fence_double_wait_counterexample :
    ((runFrames 2
          [⟨AcquireResult.outOfDate, false, PresentResult.success⟩,
            ⟨AcquireResult.success, false, PresentResult.success⟩,
            ⟨AcquireResult.success, false, PresentResult.success⟩]
          initFrameState).2).flatten.getD 0 FrameEvent.recreateSwapChain =
        FrameEvent.fenceWait 1 ∧
      ((runFrames 2
          [⟨AcquireResult.outOfDate, false, PresentResult.success⟩,
            ⟨AcquireResult.success, false, PresentResult.success⟩,
            ⟨AcquireResult.success, false, PresentResult.success⟩]
          initFrameState).2).flatten.getD 9 FrameEvent.recreateSwapChain =
        FrameEvent.fenceWait 1 ∧
      ∀ e ∈ (((runFrames 2
          [⟨AcquireResult.outOfDate, false, PresentResult.success⟩,
            ⟨AcquireResult.success, false, PresentResult.success⟩,
            ⟨AcquireResult.success, false, PresentResult.success⟩]
          initFrameState).2).flatten.drop 1).take 8,
        e ≠ FrameEvent.fenceReset 1 := by
  decide

/-- The amended fence discipline for one `drawFrame` call on a running
renderer: the call waits on exactly one fence — the advanced slot's — with
no fence action before it; when acquisition succeeds (also when it merely
reports a suboptimal surface) the wait is followed by a reset of that same
fence later in the call; when acquisition reports the surface out of date
the call performs no reset at all, so the next wait on that slot happens
without an intervening reset. -/
def FenceDiscipline (N callId : Nat) (inp : FrameInput)
    (s : FrameSyncState) : Prop :=
  ∃ A B, (drawFrame N callId inp s).2 =
      A ++ FrameEvent.fenceWait ((s.currentFrame + 1) % N) :: B ∧
    (∀ slot, FrameEvent.fenceWait slot ∉ A) ∧
    (∀ slot, FrameEvent.fenceReset slot ∉ A) ∧
    (∀ slot, FrameEvent.fenceWait slot ∉ B) ∧
    ((inp.acquire = AcquireResult.success ∨
        inp.acquire = AcquireResult.suboptimal) →
      FrameEvent.fenceReset ((s.currentFrame + 1) % N) ∈ B) ∧
    (inp.acquire = AcquireResult.outOfDate →
      ∀ slot, FrameEvent.fenceReset slot ∉ B)

theorem drawFrameBody_log (callId : Nat) (reb : Bool) (pres : PresentResult)
    (cf : Nat) (s1 : FrameSyncState) (preEvents : List FrameEvent) :
    ∃ tail, (drawFrameBody callId reb pres cf s1 preEvents).2 =
        preEvents ++ [FrameEvent.updateUniform cf] ++
          (processLoadedMeshesDefer callId cf reb s1).2 ++
          [FrameEvent.fenceReset cf, FrameEvent.resetCommand cf,
            FrameEvent.recordCommand cf, FrameEvent.submit cf,
            FrameEvent.presentCall cf] ++ tail ∧
      (tail = [] ∨ tail = [FrameEvent.recreateSwapChain] ∨
        tail = [FrameEvent.fatalError]) := by
  unfold drawFrameBody drawFrameBodyEvents
  split
  · exact ⟨[FrameEvent.recreateSwapChain], by simp, by simp⟩
  · split
    · exact ⟨[FrameEvent.fatalError], by simp, by simp⟩
    · exact ⟨[], by simp, by simp⟩

/-- Claim C2 (amended): every running `drawFrame` call obeys
`FenceDiscipline` — one wait, on the advanced slot's fence, reset within
the same call exactly when the frame is not skipped at acquisition. -/
theorem fence_wait_reset_discipline (N callId : Nat) (inp : FrameInput)
    (s : FrameSyncState) (h : s.isRunning = true) :
    FenceDiscipline N callId inp s := by
  unfold FenceDiscipline
  obtain ⟨acq, reb, pres⟩ := inp
  unfold drawFrame
  rw [if_neg (by simp [h])]
  have hclean := cleanupFrameResources_events N
    { s with currentFrame := (s.currentFrame + 1) % N }
  have hqueue := processLoadedMeshesDefer_events callId
    ((s.currentFrame + 1) % N) reb
    (cleanupFrameResources N
      { s with currentFrame := (s.currentFrame + 1) % N }).1
  have hcleanWait : ∀ slot,
      FrameEvent.fenceWait slot ∉ (cleanupFrameResources N
        { s with currentFrame := (s.currentFrame + 1) % N }).2 := by
    intro slot hmem
    obtain ⟨entry, he⟩ := hclean _ hmem
    cases he
  have hcleanReset : ∀ slot,
      FrameEvent.fenceReset slot ∉ (cleanupFrameResources N
        { s with currentFrame := (s.currentFrame + 1) % N }).2 := by
    intro slot hmem
    obtain ⟨entry, he⟩ := hclean _ hmem
    cases he
  cases acq with
  | outOfDate =>
    exact ⟨_, [FrameEvent.recreateSwapChain], by simp, hcleanWait,
      hcleanReset, by simp, by simp, by intro _ slot hmem; simp at hmem⟩
  | otherError =>
    exact ⟨_, [FrameEvent.fatalError], by simp, hcleanWait,
      hcleanReset, by simp, by simp, by simp⟩
  | success =>
    obtain ⟨tail, hlog, htail⟩ := drawFrameBody_log callId reb pres
      ((s.currentFrame + 1) % N)
      (cleanupFrameResources N
        { s with currentFrame := (s.currentFrame + 1) % N }).1
      ((cleanupFrameResources N
        { s with currentFrame := (s.currentFrame + 1) % N }).2 ++
        [FrameEvent.fenceWait ((s.currentFrame + 1) % N)])
    refine ⟨(cleanupFrameResources N
        { s with currentFrame := (s.currentFrame + 1) % N }).2,
      [FrameEvent.updateUniform ((s.currentFrame + 1) % N)] ++
        (processLoadedMeshesDefer callId ((s.currentFrame + 1) % N) reb
          (cleanupFrameResources N
            { s with currentFrame := (s.currentFrame + 1) % N }).1).2 ++
        [FrameEvent.fenceReset ((s.currentFrame + 1) % N),
          FrameEvent.resetCommand ((s.currentFrame + 1) % N),
          FrameEvent.recordCommand ((s.currentFrame + 1) % N),
          FrameEvent.submit ((s.currentFrame + 1) % N),
          FrameEvent.presentCall ((s.currentFrame + 1) % N)] ++ tail,
      ?_, hcleanWait, hcleanReset, ?_, ?_, ?_⟩
    · rw [hlog]
      simp
    · intro slot hmem
      simp only [List.mem_append, List.mem_cons, List.mem_singleton] at hmem
      rcases hmem with ((hmem | hmem) | hmem) | hmem
      · simp at hmem
      · obtain ⟨entry, he⟩ := hqueue _ hmem
        cases he
      · simp at hmem
      · rcases htail with rfl | rfl | rfl <;> simp at hmem
    · intro _
      simp
    · intro hcontra
      cases hcontra
  | suboptimal =>
    obtain ⟨tail, hlog, htail⟩ := drawFrameBody_log callId reb pres
      ((s.currentFrame + 1) % N)
      (cleanupFrameResources N
        { s with currentFrame := (s.currentFrame + 1) % N }).1
      ((cleanupFrameResources N
        { s with currentFrame := (s.currentFrame + 1) % N }).2 ++
        [FrameEvent.fenceWait ((s.currentFrame + 1) % N)])
    refine ⟨(cleanupFrameResources N
        { s with currentFrame := (s.currentFrame + 1) % N }).2,
      [FrameEvent.updateUniform ((s.currentFrame + 1) % N)] ++
        (processLoadedMeshesDefer callId ((s.currentFrame + 1) % N) reb
          (cleanupFrameResources N
            { s with currentFrame := (s.currentFrame + 1) % N }).1).2 ++
        [FrameEvent.fenceReset ((s.currentFrame + 1) % N),
          FrameEvent.resetCommand ((s.currentFrame + 1) % N),
          FrameEvent.recordCommand ((s.currentFrame + 1) % N),
          FrameEvent.submit ((s.currentFrame + 1) % N),
          FrameEvent.presentCall ((s.currentFrame + 1) % N)] ++ tail,
      ?_, hcleanWait, hcleanReset, ?_, ?_, ?_⟩
    · rw [hlog]
      simp
    · intro slot hmem
      simp only [List.mem_append, List.mem_cons, List.mem_singleton] at hmem
      rcases hmem with ((hmem | hmem) | hmem) | hmem
      · simp at hmem
      · obtain ⟨entry, he⟩ := hqueue _ hmem
        cases he
      · simp at hmem
      · rcases htail with rfl | rfl | rfl <;> simp at hmem
    · intro _
      simp
    · intro hcontra
      cases hcontra

/-- Witness for the amended C2: the discipline holds on a concrete running
state and input. -/
theorem fence_wait_reset_discipline_witness :
    initFrameState.isRunning = true ∧
      FenceDiscipline 2 0
        ⟨AcquireResult.success, true, PresentResult.success⟩ initFrameState :=
  ⟨rfl, fence_wait_reset_discipline 2 0 _ initFrameState rfl⟩

/-- The amended C3 behavior of one running `drawFrame` call whose image
acquisition reports the surface out of date: swapchain recreation is
triggered and the frame is abandoned — no command buffer is recorded,
nothing is submitted, no present occurs — and no fatal assertion fires
(the skipped frame is not an error). -/
def OutOfDateAcquireSkips (N callId : Nat) (inp : FrameInput)
    (s : FrameSyncState) : Prop :=
  FrameEvent.recreateSwapChain ∈ (drawFrame N callId inp s).2 ∧
    (∀ slot, FrameEvent.recordCommand slot ∉ (drawFrame N callId inp s).2) ∧
    (∀ slot, FrameEvent.submit slot ∉ (drawFrame N callId inp s).2) ∧
    (∀ slot, FrameEvent.presentCall slot ∉ (drawFrame N callId inp s).2) ∧
    (∀ slot, FrameEvent.fenceReset slot ∉ (drawFrame N callId inp s).2) ∧
    FrameEvent.fatalError ∉ (drawFrame N callId inp s).2

/-- Claim C3 (amended): whenever acquisition reports the surface out of
date, the running `drawFrame` call recreates the swapchain and aborts the
frame without recording, submitting, presenting, resetting the fence, or
raising an error.  (As stated the claim also covered a suboptimal
acquisition; see the counterexample.) -/
theorem acquire_out_of_date_skips (N callId : Nat) (inp : FrameInput)
    (s : FrameSyncState) (hrun : s.isRunning = true)
    (hacq : inp.acquire = AcquireResult.outOfDate) :
    OutOfDateAcquireSkips N callId inp s := by
  unfold OutOfDateAcquireSkips
  obtain ⟨acq, reb, pres⟩ := inp
  cases hacq
  unfold drawFrame
  rw [if_neg (by simp [hrun])]
  have hclean := cleanupFrameResources_events N
    { s with currentFrame := (s.currentFrame + 1) % N }
  have hmain : ∀ e, e ∈ (cleanupFrameResources N
        { s with currentFrame := (s.currentFrame + 1) % N }).2 ++
        [FrameEvent.fenceWait ((s.currentFrame + 1) % N)] ++
        [FrameEvent.recreateSwapChain] →
      (∃ entry, e = FrameEvent.destroyDeferred
          (((s.currentFrame + 1) % N + 1) % N) entry) ∨
        e = FrameEvent.fenceWait ((s.currentFrame + 1) % N) ∨
        e = FrameEvent.recreateSwapChain := by
    intro e hmem
    simp only [List.mem_append, List.mem_singleton] at hmem
    rcases hmem with (hmem | hmem) | hmem
    · exact Or.inl (hclean _ hmem)
    · exact Or.inr (Or.inl hmem)
    · exact Or.inr (Or.inr hmem)
  refine ⟨by simp, ?_, ?_, ?_, ?_, ?_⟩
  · intro slot hmem
    rcases hmain _ hmem with ⟨entry, he⟩ | he | he <;> cases he
  · intro slot hmem
    rcases hmain _ hmem with ⟨entry, he⟩ | he | he <;> cases he
  · intro slot hmem
    rcases hmain _ hmem with ⟨entry, he⟩ | he | he <;> cases he
  · intro slot hmem
    rcases hmain _ hmem with ⟨entry, he⟩ | he | he <;> cases he
  · intro hmem
    rcases hmain _ hmem with ⟨entry, he⟩ | he | he <;> cases he

/-- Witness for the amended C3: a concrete running state and an
out-of-date acquisition. -/
theorem acquire_out_of_date_skips_witness :
    initFrameState.isRunning = true ∧
      OutOfDateAcquireSkips 2 0
        ⟨AcquireResult.outOfDate, false, PresentResult.success⟩
        initFrameState :=
  ⟨rfl, acquire_out_of_date_skips 2 0 _ initFrameState rfl rfl⟩

/-- Counterexample to claim C3 as stated: when acquisition reports a
merely suboptimal surface, `drawFrame` does NOT abort the frame — it
records, submits and presents as usual and does not trigger swapchain
recreation at acquire time (with a successful present and no pending
resize, no recreation happens at all). -/
theorem acquire_suboptimal_proceeds_counterexample :
    FrameEvent.recordCommand 1 ∈
        (drawFrame 2 0
          ⟨AcquireResult.suboptimal, false, PresentResult.success⟩
          initFrameState).2 ∧
      FrameEvent.submit 1 ∈
        (drawFrame 2 0
          ⟨AcquireResult.suboptimal, false, PresentResult.success⟩
          initFrameState).2 ∧
      FrameEvent.presentCall 1 ∈
        (drawFrame 2 0
          ⟨AcquireResult.suboptimal, false, PresentResult.success⟩
          initFrameState).2 ∧
      FrameEvent.recreateSwapChain ∉
        (drawFrame 2 0
          ⟨AcquireResult.suboptimal, false, PresentResult.success⟩
          initFrameState).2 := by
  decide

/-! ## Mesh ingestion and the combined buffers
(`VulkanRenderer::processLoadedMeshes`)

The vertex payload (`math::Vertex`: position/color/texture-coordinate
floats) is opaque to every claim, so the pipeline is polymorphic in a
vertex type `V`; indices are `uint32`, modelled as `Nat`.  A mesh is
owned by the world/asset storage collaborator; the `models` render
instances hold `shared_ptr`s to the same mesh objects, modelled as indices
into the storage list. -/

/-- The camera pose data read by `updateUniformBuffer`
(position/forward/up vectors), opaque to the claims. -/
structure Camera where
  pose : Nat
deriving DecidableEq, Repr

/-- Modelled from the spec: the 4×4 matrix type `math::Matrix4x4` is
declared outside `src/`.  Only the constructions the embedded code
performs are represented: the identity (`Matrix4x4::identity()`), the
view matrix (`Matrix4x4::lookAt`), the projection matrix
(`Matrix4x4::perspective`), and arbitrary other transforms. -/
inductive Matrix4x4
  | identity
  | lookAt (camera : Camera)
  | perspective (extentWidth extentHeight : Nat)
  | other (tag : Nat)
deriving DecidableEq, Repr

/-- Modelled from the spec: the value of the default construction
`math::Matrix4x4()` is defined outside `src/`; the spec describes render
instances as carrying the identity transform, so default initialization is
modelled as the identity transform. -/
def Matrix4x4.defaultInit : Matrix4x4 := Matrix4x4.identity

/-- A mesh part: its CPU-side geometry plus the offsets into the shared
combined vertex/index buffers computed at the latest rebuild. -/
structure MeshPart (V : Type) where
  vertices : List V
  indices : List Nat
  vertexOffset : Nat
  indexOffset : Nat
deriving DecidableEq, Repr

/-- A named mesh: a collection of mesh parts (the path string is
abstracted to an identifier). -/
structure Mesh (V : Type) where
  meshId : Nat
  meshParts : List (MeshPart V)
deriving DecidableEq, Repr

/-- A render instance appended by `processLoadedMeshes`: a `shared_ptr` to
a storage-owned mesh (modelled as that mesh's index in the storage list)
and a model transform. -/
structure ModelInstance where
  meshIndex : Nat
  transform : Matrix4x4
deriving DecidableEq, Repr

/-- The renderer state touched by `processLoadedMeshes`: the storage
collaborator's mesh list, the render instances, the pending-import queue,
and the combined-buffer contents and totals. -/
structure MeshPipelineState (V : Type) where
  storageMeshes : List (Mesh V)
  models : List ModelInstance
  modelQueue : List (Mesh V)
  vertexData : List V
  indexData : List Nat
  totalVertices : Nat
  totalIndices : Nat
deriving DecidableEq, Repr

/-- The inner rebuild loop over the parts of one mesh: set each part's
offsets to the current accumulated sizes, then append its geometry to the
accumulated combined data. -/
def rebuildParts {V : Type} :
    List (MeshPart V) → List V → List Nat →
      List (MeshPart V) × List V × List Nat
  | [], accV, accI => ([], accV, accI)
  | p :: rest, accV, accI =>
    let r := rebuildParts rest (accV ++ p.vertices) (accI ++ p.indices)
    ({ p with vertexOffset := accV.length, indexOffset := accI.length } ::
        r.1,
      r.2.1, r.2.2)

/-- The outer rebuild loop over all currently known meshes. -/
def rebuildMeshes {V : Type} :
    List (Mesh V) → List V → List Nat →
      List (Mesh V) × List V × List Nat
  | [], accV, accI => ([], accV, accI)
  | m :: rest, accV, accI =>
    let rp := rebuildParts m.meshParts accV accI
    let rr := rebuildMeshes rest rp.2.1 rp.2.2
    ({ m with meshParts := rp.1 } :: rr.1, rr.2.1, rr.2.2)

/-- The drain loop of `processLoadedMeshes`, with the `std::unique_lock`
ownership made explicit.  Each iteration pops the front pending mesh and
then calls `lock.unlock()`: on the first iteration the lock owns the
mutex, so unlocking succeeds, and the popped mesh is registered with
storage and given a render instance with the identity transform; but the
loop never re-locks, so on every later iteration `unlock()` throws
`std::system_error` (`operation_not_permitted`) — after that iteration's
mesh was already popped and before it is registered.  `Except.error`
carries the storage, the render instances and the remaining queue at the
moment the exception escapes. -/
def drainQueue {V : Type} :
    List (Mesh V) → List ModelInstance → Bool → List (Mesh V) →
      Except (List (Mesh V) × List ModelInstance × List (Mesh V))
        (List (Mesh V) × List ModelInstance)
  | storage, models, _, [] => Except.ok (storage, models)
  | storage, models, lockOwned, m :: rest =>
    if lockOwned then
      drainQueue (storage ++ [m])
        (models ++ [ModelInstance.mk storage.length Matrix4x4.identity])
        false rest
    else
      Except.error (storage, models, rest)

/-- `VulkanRenderer::processLoadedMeshes`: if the pending queue is empty,
do nothing; otherwise drain it (`drainQueue`).  If the drain completes,
recompute vertex/index offsets for all parts of all known meshes, rebuild
the combined vertex and index buffers from the concatenated geometry,
store the totals, and rebuild descriptor sets for every known mesh
(returned as the list of storage indices passed to
`createDescriptorSets`).  If the drain throws, the `std::system_error`
escapes the function with the partial state (`Except.error`) and none of
the rebuild runs. -/
def processLoadedMeshes {V : Type} (s : MeshPipelineState V) :
    Except (MeshPipelineState V) (MeshPipelineState V × List Nat) :=
  if s.modelQueue.isEmpty then Except.ok (s, [])
  else
    match drainQueue s.storageMeshes s.models true s.modelQueue with
    | Except.error (storage, models, remaining) =>
      Except.error
        { s with
            storageMeshes := storage
            models := models
            modelQueue := remaining }
    | Except.ok (storage, models) =>
      let r := rebuildMeshes storage [] []
      Except.ok
        ( { storageMeshes := r.1
            models := models
            modelQueue := []
            vertexData := r.2.1
            indexData := r.2.2
            totalVertices := r.2.1.length
            totalIndices := r.2.2.length },
          List.range r.1.length )

/-- All mesh parts of all meshes, in enumeration order. -/
def flatParts {V : Type} (meshes : List (Mesh V)) : List (MeshPart V) :=
  meshes.flatMap fun m => m.meshParts

/-- The rebuilt form of a part list as the claim describes it: each part
keeps its geometry, and its offsets are the running totals `vo`/`io` of
the vertex/index counts of all preceding parts. -/
def specRebuildParts {V : Type} :
    List (MeshPart V) → Nat → Nat → List (MeshPart V)
  | [], _, _ => []
  | p :: rest, vo, io =>
    { p with vertexOffset := vo, indexOffset := io } ::
      specRebuildParts rest (vo + p.vertices.length) (io + p.indices.length)

/-- The rebuilt form of a mesh list: every mesh's parts rebuilt, with the
running totals carried across mesh boundaries. -/
def specRebuildMeshes {V : Type} :
    List (Mesh V) → Nat → Nat → List (Mesh V)
  | [], _, _ => []
  | m :: rest, vo, io =>
    { m with meshParts := specRebuildParts m.meshParts vo io } ::
      specRebuildMeshes rest
        (vo + (m.meshParts.flatMap fun p => p.vertices).length)
        (io + (m.meshParts.flatMap fun p => p.indices).length)

/-- A mesh's identity and geometry, without the mutable offsets. -/
def meshGeometry {V : Type} (m : Mesh V) :
    Nat × List (List V × List Nat) :=
  (m.meshId, m.meshParts.map fun p => (p.vertices, p.indices))

/-- All parts' offsets are the sums of the vertex/index counts of the
parts preceding them in enumeration order. -/
def partsOffsetsCorrect {V : Type} (parts : List (MeshPart V)) : Prop :=
  ∀ k, (hk : k < parts.length) →
    parts[k].vertexOffset =
        (((parts.take k).map fun p => p.vertices.length).sum) ∧
      parts[k].indexOffset =
        (((parts.take k).map fun p => p.indices.length).sum)

theorem rebuildParts_eq {V : Type} (parts : List (MeshPart V)) :
    ∀ (accV : List V) (accI : List Nat),
      rebuildParts parts accV accI =
        (specRebuildParts parts accV.length accI.length,
          accV ++ parts.flatMap fun p => p.vertices,
          accI ++ parts.flatMap fun p => p.indices) := by
  induction parts with
  | nil => intro accV accI; simp [rebuildParts, specRebuildParts]
  | cons p rest ih =>
    intro accV accI
    simp [rebuildParts, specRebuildParts, ih, List.append_assoc]

theorem rebuildMeshes_eq {V : Type} (meshes : List (Mesh V)) :
    ∀ (accV : List V) (accI : List Nat),
      rebuildMeshes meshes accV accI =
        (specRebuildMeshes meshes accV.length accI.length,
          accV ++ (flatParts meshes).flatMap fun p => p.vertices,
          accI ++ (flatParts meshes).flatMap fun p => p.indices) := by
  induction meshes with
  | nil => intro accV accI; simp [rebuildMeshes, specRebuildMeshes, flatParts]
  | cons m rest ih =>
    intro accV accI
    simp only [rebuildMeshes, rebuildParts_eq, ih, specRebuildMeshes,
      flatParts, List.flatMap_cons, List.flatMap_append, List.length_append,
      List.append_assoc]

theorem specRebuildParts_length {V : Type} (parts : List (MeshPart V)) :
    ∀ vo io, (specRebuildParts parts vo io).length = parts.length := by
  induction parts with
  | nil => intro vo io; rfl
  | cons p rest ih => intro vo io; simp [specRebuildParts, ih]

theorem specRebuildParts_append {V : Type} (l1 l2 : List (MeshPart V)) :
    ∀ vo io, specRebuildParts (l1 ++ l2) vo io =
      specRebuildParts l1 vo io ++
        specRebuildParts l2
          (vo + (l1.flatMap fun p => p.vertices).length)
          (io + (l1.flatMap fun p => p.indices).length) := by
  induction l1 with
  | nil => intro vo io; simp [specRebuildParts]
  | cons p rest ih =>
    intro vo io
    simp [specRebuildParts, ih, Nat.add_assoc]

theorem flatParts_specRebuildMeshes {V : Type} (meshes : List (Mesh V)) :
    ∀ vo io, flatParts (specRebuildMeshes meshes vo io) =
      specRebuildParts (flatParts meshes) vo io := by
  induction meshes with
  | nil => intro vo io; simp [specRebuildMeshes, flatParts, specRebuildParts]
  | cons m rest ih =>
    intro vo io
    simp only [specRebuildMeshes, flatParts, List.flatMap_cons,
      specRebuildParts_append]
    congr 1
    have ih' := ih (vo + (m.meshParts.flatMap fun p => p.vertices).length)
      (io + (m.meshParts.flatMap fun p => p.indices).length)
    simpa [flatParts] using ih'

theorem specRebuildParts_geometry {V : Type} (parts : List (MeshPart V)) :
    ∀ vo io, (specRebuildParts parts vo io).map
        (fun p => (p.vertices, p.indices)) =
      parts.map fun p => (p.vertices, p.indices) := by
  induction parts with
  | nil => intro vo io; rfl
  | cons p rest ih => intro vo io; simp [specRebuildParts, ih]

theorem specRebuildMeshes_geometry {V : Type} (meshes : List (Mesh V)) :
    ∀ vo io, (specRebuildMeshes meshes vo io).map meshGeometry =
      meshes.map meshGeometry := by
  induction meshes with
  | nil => intro vo io; rfl
  | cons m rest ih =>
    intro vo io
    simp [specRebuildMeshes, ih, meshGeometry, specRebuildParts_geometry]

theorem specRebuildParts_flatMap_vertices {V : Type}
    (parts : List (MeshPart V)) :
    ∀ vo io, ((specRebuildParts parts vo io).flatMap fun p => p.vertices) =
      parts.flatMap fun p => p.vertices := by
  induction parts with
  | nil => intro vo io; rfl
  | cons p rest ih => intro vo io; simp [specRebuildParts, ih]

theorem specRebuildParts_flatMap_indices {V : Type}
    (parts : List (MeshPart V)) :
    ∀ vo io, ((specRebuildParts parts vo io).flatMap fun p => p.indices) =
      parts.flatMap fun p => p.indices := by
  induction parts with
  | nil => intro vo io; rfl
  | cons p rest ih => intro vo io; simp [specRebuildParts, ih]

theorem specRebuildParts_map_vertexLength {V : Type}
    (parts : List (MeshPart V)) :
    ∀ vo io, ((specRebuildParts parts vo io).map fun p => p.vertices.length) =
      parts.map fun p => p.vertices.length := by
  induction parts with
  | nil => intro vo io; rfl
  | cons p rest ih => intro vo io; simp [specRebuildParts, ih]

theorem specRebuildParts_map_indexLength {V : Type}
    (parts : List (MeshPart V)) :
    ∀ vo io, ((specRebuildParts parts vo io).map fun p => p.indices.length) =
      parts.map fun p => p.indices.length := by
  induction parts with
  | nil => intro vo io; rfl
  | cons p rest ih => intro vo io; simp [specRebuildParts, ih]

theorem specRebuildParts_offsets {V : Type} (parts : List (MeshPart V)) :
    ∀ vo io k, (hk : k < (specRebuildParts parts vo io).length) →
      (specRebuildParts parts vo io)[k].vertexOffset =
          vo + (((parts.take k).map fun p => p.vertices.length).sum) ∧
        (specRebuildParts parts vo io)[k].indexOffset =
          io + (((parts.take k).map fun p => p.indices.length).sum) := by
  induction parts with
  | nil =>
    intro vo io k hk
    simp [specRebuildParts] at hk
  | cons p rest ih =>
    intro vo io k hk
    cases k with
    | zero => simp [specRebuildParts]
    | succ k =>
      have hk' : k < (specRebuildParts rest (vo + p.vertices.length)
          (io + p.indices.length)).length := by
        simpa [specRebuildParts] using hk
      have := ih (vo + p.vertices.length) (io + p.indices.length) k hk'
      simp only [specRebuildParts, List.getElem_cons_succ, List.take_succ_cons,
        List.map_cons, List.sum_cons] at this ⊢
      omega

theorem partsOffsetsCorrect_specRebuild {V : Type}
    (parts : List (MeshPart V)) :
    partsOffsetsCorrect (specRebuildParts parts 0 0) := by
  intro k hk
  have hoff := specRebuildParts_offsets parts 0 0 k hk
  have hv : (((specRebuildParts parts 0 0).take k).map
        fun p => p.vertices.length) =
      ((parts.take k).map fun p => p.vertices.length) := by
    rw [List.map_take, List.map_take, specRebuildParts_map_vertexLength]
  have hi : (((specRebuildParts parts 0 0).take k).map
        fun p => p.indices.length) =
      ((parts.take k).map fun p => p.indices.length) := by
    rw [List.map_take, List.map_take, specRebuildParts_map_indexLength]
  rw [hv, hi, hoff.1, hoff.2]
  omega

/-- Everything claim C4 asserts about the state and descriptor-rebuild
list produced by a completed drain of state `s`: all parts' offsets are
the prefix sums of the preceding parts' vertex/index counts, the combined
buffers hold exactly the concatenated geometry, the totals are the
per-part count sums, the known meshes are the previous ones plus the
drained ones with geometry unchanged, and descriptor sets are rebuilt for
every known mesh. -/
def DrainRebuildPost {V : Type} (s : MeshPipelineState V)
    (result : MeshPipelineState V × List Nat) : Prop :=
  partsOffsetsCorrect (flatParts result.1.storageMeshes) ∧
    result.1.vertexData =
      ((flatParts result.1.storageMeshes).flatMap fun p => p.vertices) ∧
    result.1.indexData =
      ((flatParts result.1.storageMeshes).flatMap fun p => p.indices) ∧
    result.1.totalVertices =
      (((flatParts result.1.storageMeshes).map
        fun p => p.vertices.length).sum) ∧
    result.1.totalIndices =
      (((flatParts result.1.storageMeshes).map
        fun p => p.indices.length).sum) ∧
    result.1.storageMeshes.map meshGeometry =
      (s.storageMeshes ++ s.modelQueue).map meshGeometry ∧
    result.2 = List.range result.1.storageMeshes.length

theorem rebuildResultPost {V : Type} (s : MeshPipelineState V)
    (storage : List (Mesh V)) (models : List ModelInstance)
    (hgeom : storage.map meshGeometry =
      (s.storageMeshes ++ s.modelQueue).map meshGeometry) :
    DrainRebuildPost s
      ( { storageMeshes := (rebuildMeshes storage [] []).1
          models := models
          modelQueue := []
          vertexData := (rebuildMeshes storage [] []).2.1
          indexData := (rebuildMeshes storage [] []).2.2
          totalVertices := (rebuildMeshes storage [] []).2.1.length
          totalIndices := (rebuildMeshes storage [] []).2.2.length },
        List.range (rebuildMeshes storage [] []).1.length ) := by
  unfold DrainRebuildPost
  rw [rebuildMeshes_eq]
  simp only [List.length_nil, List.nil_append, flatParts_specRebuildMeshes]
  refine ⟨partsOffsetsCorrect_specRebuild _, ?_, ?_, ?_, ?_, ?_, trivial⟩
  · rw [specRebuildParts_flatMap_vertices]
  · rw [specRebuildParts_flatMap_indices]
  · rw [specRebuildParts_map_vertexLength, List.length_flatMap]
    rfl
  · rw [specRebuildParts_map_indexLength, List.length_flatMap]
    rfl
  · rw [specRebuildMeshes_geometry, hgeom]

/-- The spec's mesh `M1` with 3 parts (vertex payload instantiated to
`Nat`). -/
def meshM1 : Mesh Nat :=
  { meshId := 1
    meshParts :=
      [ { vertices := [10, 11], indices := [0, 1, 0],
          vertexOffset := 0, indexOffset := 0 },
        { vertices := [12], indices := [0], vertexOffset := 0,
          indexOffset := 0 },
        { vertices := [13, 14, 15], indices := [2, 1],
          vertexOffset := 0, indexOffset := 0 } ] }

/-- The spec's mesh `M2` with 2 parts. -/
def meshM2 : Mesh Nat :=
  { meshId := 2
    meshParts :=
      [ { vertices := [20, 21], indices := [1, 0],
          vertexOffset := 0, indexOffset := 0 },
        { vertices := [22], indices := [0, 0, 0],
          vertexOffset := 0, indexOffset := 0 } ] }

/-- The spec's own test scenario: an empty storage and a queue holding
`M1` (3 parts) and `M2` (2 parts). -/
def meshImportTestState : MeshPipelineState Nat :=
  { storageMeshes := []
    models := []
    modelQueue := [meshM1, meshM2]
    vertexData := []
    indexData := []
    totalVertices := 0
    totalIndices := 0 }

/-- Claim C4 (failing behavior, evaluated, plus the surviving fragment):
draining the spec's two-mesh M1/M2 queue throws `std::system_error` out
of the drain loop — M1 is registered and given a render instance, M2 has
already been popped and is lost, and the offset/buffer/descriptor rebuild
never runs (the combined buffers and totals are untouched in the escaping
state).  A drain of a single pending mesh, by contrast, completes and
establishes everything the claim asserts (`DrainRebuildPost`): it is the
in-loop `lock.unlock()`, not the rebuild logic, that breaks the claim. -/
theorem processLoadedMeshes_multi_drain_throws :
    processLoadedMeshes meshImportTestState =
        Except.error
          { storageMeshes := [meshM1]
            models := [ModelInstance.mk 0 Matrix4x4.identity]
            modelQueue := []
            vertexData := []
            indexData := []
            totalVertices := 0
            totalIndices := 0 } ∧
      ∀ (V : Type) (s : MeshPipelineState V) (m : Mesh V),
        s.modelQueue = [m] →
        ∃ result, processLoadedMeshes s = Except.ok result ∧
          DrainRebuildPost s result := by
  constructor
  · rfl
  · intro V s m hqueue
    have hne : ¬ s.modelQueue.isEmpty = true := by rw [hqueue]; simp
    refine ⟨_, ?_, rebuildResultPost s (s.storageMeshes ++ [m])
      (s.models ++ [ModelInstance.mk s.storageMeshes.length
        Matrix4x4.identity]) (by rw [hqueue])⟩
    unfold processLoadedMeshes
    rw [if_neg hne, hqueue]
    rfl

/-- A single pending mesh on top of existing content. -/
def singleMeshTestState : MeshPipelineState Nat :=
  { storageMeshes := [meshM2]
    models := [ModelInstance.mk 0 Matrix4x4.identity]
    modelQueue := [meshM1]
    vertexData := [20, 21, 22]
    indexData := [1, 0, 0, 0, 0]
    totalVertices := 3
    totalIndices := 5 }

/-- Witness for C4: a single-mesh drain on a concrete state completes
and satisfies the claimed post-condition. -/
theorem processLoadedMeshes_multi_drain_throws_witness :
    singleMeshTestState.modelQueue = [meshM1] ∧
      ∃ result, processLoadedMeshes singleMeshTestState = Except.ok result ∧
        DrainRebuildPost singleMeshTestState result :=
  ⟨rfl, processLoadedMeshes_multi_drain_throws.2 Nat singleMeshTestState
    meshM1 rfl⟩

/-! ## Uniform update and command recording
(`VulkanRenderer::updateUniformBuffer`, `recordCommandBuffer`) -/

/-- The per-frame global uniform data: camera view and projection. -/
structure GlobalUbo where
  view : Matrix4x4
  projection : Matrix4x4
deriving DecidableEq, Repr

/-- The per-frame instance uniform data: the model transform. -/
structure InstanceUbo where
  model : Matrix4x4
deriving DecidableEq, Repr

/-- `VulkanRenderer::updateUniformBuffer`: writes the camera-derived
global UBO, and an `InstanceUbo` whose model matrix is the
default-constructed `math::Matrix4x4()`, into the slot's mapped buffers.
It reads only the camera and the swapchain extent — never the transforms
stored in `models`. -/
def updateUniformBuffer (camera : Camera) (extentW extentH : Nat) :
    GlobalUbo × InstanceUbo :=
  ( { view := Matrix4x4.lookAt camera,
      projection := Matrix4x4.perspective extentW extentH },
    { model := Matrix4x4.defaultInit } )

/-- A command recorded by `recordCommandBuffer`. -/
inductive DrawCmd
  | beginRenderPass (imageIndex : Nat)
  | bindPipeline
  | setViewport (width height : Nat)
  | setScissor (width height : Nat)
  | bindVertexBuffers
  | bindIndexBuffer
  | bindDescriptorSets (meshIndex partIndex frame : Nat)
  | drawIndexed (indexCount instanceCount firstIndex vertexOffset
      firstInstance : Nat)
  | renderDrawData
  | endRenderPass
deriving DecidableEq, Repr

/-- The inner loop of `recordCommandBuffer` over one mesh's parts: bind
the part's per-frame descriptor set, then
`vkCmdDrawIndexed(indexCount, 1, indexOffset, vertexOffset, 0)` (the
part's `indexCount` equals the length of its index list). -/
def recordMeshPartCmds {V : Type} (meshIndex frame : Nat)
    (parts : List (MeshPart V)) : List DrawCmd :=
  parts.enum.flatMap fun pe =>
    [DrawCmd.bindDescriptorSets meshIndex pe.1 frame,
      DrawCmd.drawIndexed pe.2.indices.length 1 pe.2.indexOffset
        pe.2.vertexOffset 0]

/-- `VulkanRenderer::recordCommandBuffer`: begin the render pass, bind the
pipeline, set viewport/scissor to the swapchain extent, bind the shared
vertex and index buffers, then `for (const auto& [mesh, transform] :
models)` draw every part of the referenced mesh — the destructured
`transform` is never used — and finally let the UI overlay append its
draw data and end the pass. -/
def recordCommandBuffer {V : Type} (meshes : List (Mesh V))
    (models : List ModelInstance) (extentW extentH imageIndex frame : Nat) :
    List DrawCmd :=
  [DrawCmd.beginRenderPass imageIndex, DrawCmd.bindPipeline,
      DrawCmd.setViewport extentW extentH, DrawCmd.setScissor extentW extentH,
      DrawCmd.bindVertexBuffers, DrawCmd.bindIndexBuffer] ++
    (models.flatMap fun m =>
      match meshes.get? m.meshIndex with
      | none => []
      | some mesh => recordMeshPartCmds m.meshIndex frame mesh.meshParts) ++
    [DrawCmd.renderDrawData, DrawCmd.endRenderPass]

/-- Claim C10: every frame, `updateUniformBuffer` writes the identity
matrix as the instance model transform (for every camera and extent,
independently of `models`), and the command stream recorded by
`recordCommandBuffer` is unchanged under arbitrary replacement of the
transforms stored with the render instances — so meshes are always drawn
with the identity model transform regardless of the stored transforms. -/
theorem draws_use_identity_model_transform {V : Type} (camera : Camera)
    (extentW extentH imageIndex frame : Nat) (meshes : List (Mesh V))
    (models : List ModelInstance) (f : ModelInstance → Matrix4x4) :
    (updateUniformBuffer camera extentW extentH).2.model =
        Matrix4x4.identity ∧
      recordCommandBuffer meshes
          (models.map fun m => { m with transform := f m })
          extentW extentH imageIndex frame =
        recordCommandBuffer meshes models extentW extentH imageIndex frame := by
  refine ⟨rfl, ?_⟩
  unfold recordCommandBuffer
  rw [List.flatMap_map]

end TesseraEngine
